import Mathlib

/-!
Verification of the video-compression service (src/app/main.py,
src/app/ffmpeg_handler.py, src/app/utils.py) against its specification.

The Python code is shallowly embedded: Python floats are modelled by exact
rationals (`ℚ`), machine integers by `ℤ`/`ℕ`, raised exceptions by
`Except PyExc`, the on-disk workspace layout by a list of per-job
workspaces, and each external subprocess invocation by an
environment-supplied `ProcResult` (exit code, stdout, stderr).  String
scanning helpers are written over `List Char` so that every definition is
executable by plain reduction.
-/

/-- Python exceptions that the modelled code can raise.  `runtimeError` is
the `RuntimeError` the handlers raise with a diagnostic detail string;
`httpException` is FastAPI's `HTTPException(status_code, detail)`. -/
inductive PyExc where
  | runtimeError (detail : String)
  | valueError (detail : String)
  | zeroDivisionError
  | httpException (status : ℕ) (detail : String)
  | fileNotFoundError (detail : String)
  | permissionError (detail : String)
deriving DecidableEq, Repr

instance {ε α : Type} [DecidableEq ε] [DecidableEq α] : DecidableEq (Except ε α) := fun x y =>
  match x, y with
  | .ok a, .ok b => decidable_of_iff (a = b) (by simp)
  | .error a, .error b => decidable_of_iff (a = b) (by simp)
  | .ok _, .error _ => isFalse (fun h => Except.noConfusion h)
  | .error _, .ok _ => isFalse (fun h => Except.noConfusion h)

/-- Outcome of one external subprocess invocation (ffprobe/ffmpeg), as
observed through `subprocess.run(..., capture_output=True, text=True)`:
exit code, captured stdout and captured stderr. -/
structure ProcResult where
  exitCode : ℕ
  stdout : String
  stderr : String
deriving DecidableEq, Repr

/-- Strip whitespace from both ends of a character list (the effect of
Python `str.strip()` / the stripping `float` and `int` do themselves). -/
def trimChars (cs : List Char) : List Char :=
  ((cs.dropWhile Char.isWhitespace).reverse.dropWhile Char.isWhitespace).reverse

/-- `trimChars` packaged back into a string. -/
def trimStr (s : String) : String :=
  String.mk (trimChars s.toList)

/-- Split a character list at every dot, like Python `str.split(".")`. -/
def splitDot (cs : List Char) : List (List Char) :=
  cs.foldr
    (fun c acc =>
      match acc with
      | [] => if c = '.' then [[], []] else [[c]]
      | h :: t => if c = '.' then [] :: h :: t else (c :: h) :: t)
    [[]]

/-- Value of a single decimal digit character. -/
def digitVal (c : Char) : Option ℕ :=
  if c.isDigit then some (c.toNat - 48) else none

/-- Accumulate a digit string into a natural number; `none` when any
character is not a digit.  The empty list yields `some 0`; callers reject
empty bodies themselves. -/
def digitsVal (cs : List Char) : Option ℕ :=
  cs.foldl
    (fun acc c =>
      match acc, digitVal c with
      | some n, some d => some (10 * n + d)
      | _, _ => none)
    (some 0)

/-- Sign handling shared by the numeric parsers: an optional leading `-`
or `+` followed by the body. -/
def splitSign (cs : List Char) : ℤ × List Char :=
  match cs with
  | '-' :: rest => (-1, rest)
  | '+' :: rest => (1, rest)
  | _ => (1, cs)

/-- Model of Python `float(s)` on the decimal literals ffprobe emits
(optional sign, digits, optional fractional part); `none` models the
`ValueError` raised on any other string.  Surrounding whitespace is
stripped, as `float` does. -/
def parseFloatChars (cs : List Char) : Option ℚ :=
  let sb := splitSign (trimChars cs)
  match splitDot sb.2 with
  | [ip] =>
      if ip = [] then none
      else (digitsVal ip).map (fun n => (sb.1 : ℚ) * (n : ℚ))
  | [ip, fp] =>
      if ip = [] && fp = [] then none
      else
        match digitsVal ip, digitsVal fp with
        | some a, some b =>
            some ((sb.1 : ℚ) * ((a : ℚ) + (b : ℚ) / (10 : ℚ) ^ fp.length))
        | _, _ => none
  | _ => none

/-- `parseFloatChars` on a string. -/
def parseFloatPy (s : String) : Option ℚ :=
  parseFloatChars s.toList

/-- Model of Python `int(s)` on strings: optional sign followed by a
nonempty digit string; `none` models the `ValueError` otherwise. -/
def parseIntChars (cs : List Char) : Option ℤ :=
  let sb := splitSign (trimChars cs)
  if sb.2 = [] then none
  else (digitsVal sb.2).map (fun n => sb.1 * (n : ℤ))

/-- `parseIntChars` on a string. -/
def parseIntPy (s : String) : Option ℤ :=
  parseIntChars s.toList

/-- Python `int()` applied to a real value: truncation toward zero.  On a
rational in lowest terms this is the truncating division of the numerator
by the denominator. -/
def pyInt (q : ℚ) : ℤ := q.num.tdiv q.den

/-- ffmpeg_handler.py line 89: `target_size_bits = target_size_mb * 8 * 1024 * 1024`. -/
def target_size_bits (target_size_mb : ℚ) : ℚ :=
  target_size_mb * 8 * 1024 * 1024

/-- ffmpeg_handler.py line 90: `target_bitrate = int(target_size_bits / duration)`.
Only evaluated when `duration ≠ 0` (see `rate_plan`). -/
def target_bitrate (target_size_mb duration : ℚ) : ℤ :=
  pyInt (target_size_bits target_size_mb / duration)

/-- The rate-planning step of `compress_video` (ffmpeg_handler.py lines
88–90) with Python division semantics: dividing by a zero float raises
`ZeroDivisionError`; otherwise the truncated quotient is returned.  There
is no validation of `target_size_mb` or of the sign of the result. -/
def rate_plan (target_size_mb duration : ℚ) : Except PyExc ℤ :=
  if duration = 0 then .error PyExc.zeroDivisionError
  else .ok (target_bitrate target_size_mb duration)

/-- ffmpeg_handler.py `get_video_info` (lines 9–31): runs ffprobe; a
non-zero exit (`CalledProcessError`) is re-raised as a `RuntimeError`
carrying stderr; on success the raw stdout is returned unparsed. -/
def get_video_info (res : ProcResult) : Except PyExc String :=
  if res.exitCode ≠ 0 then
    .error (.runtimeError ("Failed to get video information: " ++ res.stderr))
  else
    .ok res.stdout

/-- ffmpeg_handler.py `get_video_duration` (lines 33–53): runs ffprobe;
non-zero exit is re-raised as a `RuntimeError` carrying stderr; otherwise
`float(result.stdout.strip())` is returned — an unparsable stdout raises
a bare `ValueError` that the function does not catch. -/
def get_video_duration (res : ProcResult) : Except PyExc ℚ :=
  if res.exitCode ≠ 0 then
    .error (.runtimeError ("Failed to get video duration: " ++ res.stderr))
  else
    match parseFloatPy res.stdout with
    | some d => .ok d
    | none => .error (.valueError ("could not convert string to float: " ++ trimStr res.stdout))

/-- ffmpeg_handler.py `get_video_bitrate` (lines 55–75): runs ffprobe;
non-zero exit is re-raised as a `RuntimeError` carrying stderr; otherwise
`int(result.stdout.strip())` is returned — an unparsable stdout raises a
bare `ValueError` that the function does not catch. -/
def get_video_bitrate (res : ProcResult) : Except PyExc ℤ :=
  if res.exitCode ≠ 0 then
    .error (.runtimeError ("Failed to get video bitrate: " ++ res.stderr))
  else
    match parseIntPy res.stdout with
    | some b => .ok b
    | none => .error (.valueError ("invalid literal for int with base 10: " ++ trimStr res.stdout))

/-- A filesystem path, as its list of components (pathlib semantics:
`p.parent` drops the last component, `p.name` is the last component). -/
abbrev FsPath := List String

/-- utils.py line 6: `TEMP_DIR = Path(__file__).parent / "temp"`, the
process-wide temp root (the directory of utils.py, here `app`, plus
`temp`). -/
def TEMP_DIR : FsPath := ["app", "temp"]

/-- Render a path as the string handed to a subprocess. -/
def pathStr (p : FsPath) : String := String.intercalate "/" p

/-- `Path(input_path).parent.name`: the name of the containing directory. -/
def parentName (p : FsPath) : String := p.dropLast.getLastD ""

/-- One per-job workspace directory under `TEMP_DIR`: its name (the job
id) and the names of the files it contains.  File contents are not
modelled, only presence. -/
structure Workspace where
  jobId : String
  files : List String
deriving DecidableEq, Repr

/-- The state of the temp root: the list of existing job workspaces. -/
abbrev Fs := List Workspace

/-- `(TEMP_DIR / job_id).exists()`. -/
def wsExists (fs : Fs) (j : String) : Bool :=
  fs.any (fun w => w.jobId = j)

/-- Record that a file of the given name now exists inside workspace `j`
(writing to an existing name is idempotent on presence). -/
def fsWriteFile (fs : Fs) (j : String) (name : String) : Fs :=
  fs.map (fun w =>
    if w.jobId = j then
      ⟨w.jobId, if name ∈ w.files then w.files else w.files ++ [name]⟩
    else w)

/-- utils.py `save_blob_file` (lines 8–19): creates the job directory
(`mkdir(parents=True, exist_ok=True)`), writes the uploaded bytes to a
file that is always named `input.mp4` (the code interpolates nothing into
`f"input.mp4"`), and returns that file's path. -/
def save_blob_file (fs : Fs) (_content : List ℕ) (job_id : String) : Fs × FsPath :=
  let fs1 := if wsExists fs job_id then fs else fs ++ [⟨job_id, []⟩]
  (fsWriteFile fs1 job_id "input.mp4", TEMP_DIR ++ [job_id, "input.mp4"])

/-- Does the file at path `p = TEMP_DIR/<job>/<name>` exist? -/
def fileExists (fs : Fs) (p : FsPath) : Bool :=
  p.dropLast.dropLast = TEMP_DIR &&
    fs.any (fun w => w.jobId = p.dropLast.getLastD "" && w.files.contains (p.getLastD ""))

/-- utils.py `read_file_as_bytes` (lines 21–24): opening a missing file
raises `FileNotFoundError`; contents are supplied by the caller's
environment since the filesystem model tracks only file presence. -/
def read_file_as_bytes (fs : Fs) (p : FsPath) (contents : List ℕ) : Except PyExc (List ℕ) :=
  if fileExists fs p then .ok contents
  else .error (.fileNotFoundError (pathStr p))

/-- `shutil.rmtree(job_dir)`: removes the workspace; raises
`FileNotFoundError` when the directory does not exist. -/
def rmtree (fs : Fs) (j : String) : Except PyExc Fs :=
  if wsExists fs j then .ok (fs.filter (fun w => w.jobId ≠ j))
  else .error (.fileNotFoundError j)

/-- utils.py `cleanup_temp_files` (lines 26–30): `rmtree` guarded by
`job_dir.exists()`, so it never calls `rmtree` on a missing directory. -/
def cleanup_temp_files (fs : Fs) (j : String) : Except PyExc Fs :=
  if wsExists fs j then rmtree fs j else .ok fs

/-- utils.py `get_video_output_path` (lines 32–35): ignores the input
path and returns `TEMP_DIR / job_id / "output.mp4"`. -/
def get_video_output_path (_input_path : FsPath) (job_id : String) : FsPath :=
  TEMP_DIR ++ [job_id, "output.mp4"]

/-- One ffmpeg command-line argument.  Arguments the source interpolates
a number into (`f"{target_bitrate}"`, `f"{target_bitrate * 1.5}"`,
`f"{target_bitrate * 2}"`) are kept as their numeric value; path-valued
arguments as their path. -/
inductive CmdArg where
  | str (s : String)
  | num (q : ℚ)
  | path (p : FsPath)
deriving DecidableEq, Repr

/-- The `-vf` filter string appended when `maintain_aspect_ratio` is set. -/
def scale_filter : String := "scale=trunc(iw/2)*2:trunc(ih/2)*2"

/-- ffmpeg_handler.py lines 96–110: `base_cmd` for pass 1, including the
conditional aspect-ratio filter appended by `base_cmd.extend`. -/
def base_cmd (input_path : FsPath) (tb : ℤ) (maintainAspect : Bool) : List CmdArg :=
  [.str "ffmpeg",
   .str "-i", .path input_path,
   .str "-c:v", .str "libx264",
   .str "-preset", .str "medium",
   .str "-crf", .str "23",
   .str "-b:v", .num (tb : ℚ),
   .str "-maxrate", .num ((tb : ℚ) * 1.5),
   .str "-bufsize", .num ((tb : ℚ) * 2),
   .str "-pass", .str "1",
   .str "-f", .str "mp4"] ++
  (if maintainAspect then [.str "-vf", .str scale_filter] else [])

/-- ffmpeg_handler.py line 113: `first_pass = base_cmd + ["-y", "NUL"]` —
the pass-1 output is discarded into the `NUL` sink. -/
def first_pass (input_path : FsPath) (tb : ℤ) (maintainAspect : Bool) : List CmdArg :=
  base_cmd input_path tb maintainAspect ++ [.str "-y", .str "NUL"]

/-- ffmpeg_handler.py lines 122–141: the pass-2 command, with the same
bitrate arguments, fixed audio arguments, the conditional aspect-ratio
filter, and the real output path. -/
def second_pass (input_path : FsPath) (tb : ℤ) (maintainAspect : Bool)
    (output_path : FsPath) : List CmdArg :=
  [.str "ffmpeg",
   .str "-i", .path input_path,
   .str "-c:v", .str "libx264",
   .str "-preset", .str "medium",
   .str "-crf", .str "23",
   .str "-b:v", .num (tb : ℚ),
   .str "-maxrate", .num ((tb : ℚ) * 1.5),
   .str "-bufsize", .num ((tb : ℚ) * 2),
   .str "-pass", .str "2",
   .str "-c:a", .str "aac",
   .str "-b:a", .str "128k",
   .str "-ar", .str "44100",
   .str "-ac", .str "2"] ++
  (if maintainAspect then [.str "-vf", .str scale_filter] else []) ++
  [.str "-y", .path output_path]

/-- The argument following the first occurrence of a literal flag in a
command line (the value an encoder would receive for that flag). -/
def argAfter : List CmdArg → String → Option CmdArg
  | [], _ => none
  | [_], _ => none
  | .str s :: b :: rest, flag => if s = flag then some b else argAfter (b :: rest) flag
  | _ :: b :: rest, flag => argAfter (b :: rest) flag

/-- Effect of `scale=trunc(iw/2)*2:trunc(ih/2)*2` on nonnegative input
dimensions: each is rounded down to the nearest even integer. -/
def evenScale (w h : ℕ) : ℕ × ℕ := (w / 2 * 2, h / 2 * 2)

/-- Results of the four subprocess invocations `compress_video` can make,
supplied by the environment: the two ffprobe calls and the two encode
passes. -/
structure FfmpegEnv where
  info_result : ProcResult
  duration_result : ProcResult
  pass1_result : ProcResult
  pass2_result : ProcResult
deriving DecidableEq, Repr

/-- A recorded encoder invocation: which pass ran, with which command. -/
structure PassRun where
  passNo : ℕ
  cmd : List CmdArg
deriving DecidableEq, Repr

/-- ffmpeg_handler.py `compress_video` (lines 77–150): probe info, probe
duration, compute the target bitrate, re-derive the job id from the input
path's parent directory, run pass 1 (re-raising a failure as
`RuntimeError` and never starting pass 2), then run pass 2 (same
re-raise), which writes `output.mp4` into the job workspace.  Returns the
result, the list of passes that were invoked, and the updated
filesystem. -/
def compress_video (fs : Fs) (env : FfmpegEnv) (input_path : FsPath)
    (target_size_mb : ℚ) (maintainAspect : Bool) :
    Except PyExc FsPath × List PassRun × Fs :=
  match get_video_info env.info_result with
  | .error e => (.error e, [], fs)
  | .ok _ =>
    match get_video_duration env.duration_result with
    | .error e => (.error e, [], fs)
    | .ok duration =>
      match rate_plan target_size_mb duration with
      | .error e => (.error e, [], fs)
      | .ok tb =>
        let job_id := parentName input_path
        let output_path := get_video_output_path input_path job_id
        let fp := first_pass input_path tb maintainAspect
        if env.pass1_result.exitCode ≠ 0 then
          (.error (.runtimeError ("First pass encoding failed: " ++ env.pass1_result.stderr)),
           [⟨1, fp⟩], fs)
        else
          let sp := second_pass input_path tb maintainAspect output_path
          if env.pass2_result.exitCode ≠ 0 then
            (.error (.runtimeError ("Second pass encoding failed: " ++ env.pass2_result.stderr)),
             [⟨1, fp⟩, ⟨2, sp⟩], fs)
          else
            (.ok output_path, [⟨1, fp⟩, ⟨2, sp⟩], fsWriteFile fs job_id "output.mp4")

/-- main.py lines 44–55: the fixed allow-list of video MIME types mapped
to their file extensions. -/
def SUPPORTED_FORMATS : List (String × String) :=
  [("video/mp4", ".mp4"),
   ("video/quicktime", ".mov"),
   ("video/x-msvideo", ".avi"),
   ("video/x-matroska", ".mkv"),
   ("video/webm", ".webm"),
   ("video/3gpp", ".3gp"),
   ("video/x-ms-wmv", ".wmv"),
   ("video/x-flv", ".flv"),
   ("video/mpeg", ".mpeg"),
   ("video/x-m4v", ".m4v")]

/-- `video.content_type in SUPPORTED_FORMATS` (dict key membership). -/
def supported_format (contentType : String) : Bool :=
  (SUPPORTED_FORMATS.lookup contentType).isSome

/-- The detail string of the 400 response for a bad MIME type. -/
def unsupported_detail : String :=
  "Unsupported file type. Supported formats are: " ++
    String.intercalate ", " (SUPPORTED_FORMATS.map (fun kv => kv.2))

/-- The parsed multipart form of one `POST /compress-mp4` request. -/
structure UploadRequest where
  contentType : String
  filename : String
  content : List ℕ
  target_size_mb : ℚ
  maintainAspect : Bool
deriving DecidableEq, Repr

/-- The HTTP response the endpoint produces: either the compressed bytes
with the attachment filename, or an error status with a detail string. -/
inductive HttpResponse where
  | success (body : List ℕ) (mediaType : String) (filename : String)
  | failure (status : ℕ) (detail : String)
deriving DecidableEq, Repr

/-- Observable side effects of one request, in order of occurrence. -/
inductive Event where
  | genJobId (j : String)
  | workspaceCreated (j : String)
  | inputStaged (j : String) (name : String) (content : List ℕ)
  | passRun (n : ℕ)
  | cleanupRun (j : String)
deriving DecidableEq, Repr

/-- `os.path.splitext(filename)[0]`, for filenames with a nonempty stem:
everything before the last dot. -/
def splitext_stem (s : String) : String :=
  let parts := (splitDot s.toList).map String.mk
  match parts with
  | [] => s
  | [_] => s
  | _ => String.intercalate "." parts.dropLast

/-- Per-request environment of the endpoint: the generated uuid, whether
`os.system("ffmpeg -version")` succeeds, the subprocess results inside
`compress_video`, and the bytes read back from the output file. -/
structure EndpointEnv where
  job_id : String
  ffmpegAvailable : Bool
  ffmpeg : FfmpegEnv
  outputBytes : List ℕ
deriving DecidableEq, Repr

/-- Python `str(e)` for the modelled exceptions (FastAPI's
`HTTPException.__str__` is `"{status_code}: {detail}"`). -/
def pyStr : PyExc → String
  | .runtimeError d => d
  | .valueError d => d
  | .zeroDivisionError => "float division by zero"
  | .httpException s d => Nat.repr s ++ ": " ++ d
  | .fileNotFoundError d => d
  | .permissionError d => d

/-- main.py lines 152–164: the `except` ladder of the inner `try` —
`FileNotFoundError` and `PermissionError` get dedicated 500 details, and
every other exception (including an `HTTPException` raised inside the
inner `try`, since `HTTPException` subclasses `Exception`) is wrapped in
a 500 `"Video processing failed: ..."` response. -/
def except_to_response : PyExc → HttpResponse
  | .fileNotFoundError d => .failure 500 ("File operation failed: " ++ d)
  | .permissionError d => .failure 500 ("Permission denied: " ++ d)
  | e => .failure 500 ("Video processing failed: " ++ pyStr e)

/-- main.py lines 113–150: the inner `try` block of the endpoint — check
for empty content, stage the upload with `save_blob_file`, check that
ffmpeg is available, run `compress_video`, and read the output file back.
Returns the block's result (compressed bytes or the exception that left
it), the events it caused, and the updated filesystem. -/
def inner_try (req : UploadRequest) (env : EndpointEnv) (fs : Fs) :
    Except PyExc (List ℕ) × List Event × Fs :=
  if req.content = [] then
    (.error (.httpException 400 "No file content provided"), [], fs)
  else
    let sv := save_blob_file fs req.content env.job_id
    let evs := [Event.workspaceCreated env.job_id,
                Event.inputStaged env.job_id (sv.2.getLastD "") req.content]
    if env.ffmpegAvailable = false then
      (.error (.httpException 500 "FFmpeg is not installed or not available in PATH"), evs, sv.1)
    else
      let cv := compress_video sv.1 env.ffmpeg sv.2 req.target_size_mb req.maintainAspect
      let evs2 := evs ++ cv.2.1.map (fun pr => Event.passRun pr.passNo)
      match cv.1 with
      | .error e => (.error e, evs2, cv.2.2)
      | .ok outp =>
          match read_file_as_bytes cv.2.2 outp env.outputBytes with
          | .ok bytes => (.ok bytes, evs2, cv.2.2)
          | .error e => (.error e, evs2, cv.2.2)

/-- main.py `compress_video_endpoint` (lines 95–166).  The MIME-type
check precedes job-id generation, staging, and everything else; when it
fails the `finally` block's `cleanup_temp_files(job_id)` raises a
`NameError` (`job_id` is unbound) that is caught and logged, so nothing
is cleaned and no workspace was touched.  Otherwise the inner `try` runs
and the `finally` block removes the job workspace (exceptions from
cleanup are caught and logged) before the response leaves the handler. -/
def compress_video_endpoint (req : UploadRequest) (env : EndpointEnv) (fs : Fs) :
    HttpResponse × List Event × Fs :=
  if supported_format req.contentType = false then
    (.failure 400 unsupported_detail, [], fs)
  else
    let it := inner_try req env fs
    let resp :=
      match it.1 with
      | .ok bytes =>
          HttpResponse.success bytes "video/mp4"
            ("compressed_" ++ splitext_stem req.filename ++ ".mp4")
      | .error e => except_to_response e
    let fs2 :=
      match cleanup_temp_files it.2.2 env.job_id with
      | .ok f => f
      | .error _ => it.2.2
    (resp, Event.genJobId env.job_id :: it.2.1 ++ [Event.cleanupRun env.job_id], fs2)

/-- Does a probe result fail with the ProbeError of the spec — a raised
`RuntimeError` carrying the diagnostic detail? -/
def isProbeError {α : Type} : Except PyExc α → Bool
  | .error (.runtimeError _) => true
  | _ => false

/-- For nonnegative arguments, truncation toward zero is the floor. -/
theorem pyInt_eq_floor (q : ℚ) (h : 0 ≤ q) : pyInt q = ⌊q⌋ := by
  rw [Rat.floor_def, pyInt,
    Int.tdiv_eq_ediv (Rat.num_nonneg.mpr h) (Int.ofNat_nonneg _)]

/-- For negative arguments, truncation toward zero is the ceiling. -/
theorem pyInt_eq_ceil (q : ℚ) (h : q < 0) : pyInt q = ⌈q⌉ := by
  have hn : 0 ≤ -q.num := by
    have h0 : 0 ≤ (-q).num := Rat.num_nonneg.mpr (by linarith)
    rwa [Rat.num_neg_eq_neg_num] at h0
  calc q.num.tdiv q.den
      = -((-q.num).tdiv q.den) := by rw [Int.neg_tdiv, neg_neg]
    _ = -((-q.num) / (q.den : ℤ)) := by
        rw [Int.tdiv_eq_ediv hn (Int.ofNat_nonneg _)]
    _ = -⌊-q⌋ := by
        rw [Rat.floor_def, Rat.num_neg_eq_neg_num, Rat.den_neg_eq_den]
    _ = ⌈q⌉ := by rw [Int.floor_neg, neg_neg]

theorem wsExists_filter (fs : Fs) (j : String) :
    wsExists (fs.filter (fun w => w.jobId ≠ j)) j = false := by
  induction fs with
  | nil => rfl
  | cons w rest ih =>
      by_cases h : w.jobId = j <;>
        simpa [wsExists, List.filter, h] using ih

theorem wsExists_append (a b : Fs) (j : String) :
    wsExists (a ++ b) j = (wsExists a j || wsExists b j) := by
  simp [wsExists, List.any_append]

theorem wsExists_fsWriteFile (fs : Fs) (j j' : String) (n : String) :
    wsExists (fsWriteFile fs j n) j' = wsExists fs j' := by
  induction fs with
  | nil => rfl
  | cons w rest ih =>
      by_cases h : w.jobId = j <;>
        simp [wsExists, fsWriteFile, h] at ih ⊢ <;>
          rw [ih]

theorem fsWriteFile_append (a b : Fs) (j n : String) :
    fsWriteFile (a ++ b) j n = fsWriteFile a j n ++ fsWriteFile b j n :=
  List.map_append _ a b

theorem not_mem_of_not_wsExists (fs : Fs) (j : String)
    (h : wsExists fs j = false) : ∀ w ∈ fs, w.jobId ≠ j := by
  intro w hw
  simp only [wsExists, List.any_eq_true, not_exists] at h
  have := List.any_eq_false.mp h w hw
  simpa using this

theorem fsWriteFile_of_not_exists (fs : Fs) (j n : String)
    (h : wsExists fs j = false) : fsWriteFile fs j n = fs := by
  have h' := not_mem_of_not_wsExists fs j h
  calc fsWriteFile fs j n = fs.map id :=
        List.map_congr_left (fun w hw => by simp [if_neg (h' w hw)])
    _ = fs := fs.map_id

theorem filter_of_not_exists (fs : Fs) (j : String)
    (h : wsExists fs j = false) : fs.filter (fun w => w.jobId ≠ j) = fs := by
  have h' := not_mem_of_not_wsExists fs j h
  rw [List.filter_eq_self]
  intro w hw
  simpa using h' w hw

theorem save_blob_file_exists (fs : Fs) (c : List ℕ) (j : String) :
    wsExists (save_blob_file fs c j).1 j = true := by
  by_cases h : wsExists fs j
  · simp only [save_blob_file, if_pos h]
    rw [wsExists_fsWriteFile]
    exact h
  · simp only [save_blob_file, if_neg h]
    rw [wsExists_fsWriteFile, wsExists_append]
    simp [wsExists]

theorem cleanup_removes (fs : Fs) (j : String) :
    cleanup_temp_files fs j = .ok (fs.filter (fun w => w.jobId ≠ j)) := by
  by_cases h : wsExists fs j
  · simp only [cleanup_temp_files, if_pos h, rmtree]
  · simp only [cleanup_temp_files, if_neg h,
      filter_of_not_exists fs j (by simpa using h)]

theorem compress_video_pass1_fail (fs : Fs) (env : FfmpegEnv) (p : FsPath)
    (ts : ℚ) (ma : Bool) (d : ℚ)
    (hinfo : env.info_result.exitCode = 0)
    (hde : env.duration_result.exitCode = 0)
    (hparse : parseFloatPy env.duration_result.stdout = some d)
    (hd : d ≠ 0)
    (hp1 : env.pass1_result.exitCode ≠ 0) :
    compress_video fs env p ts ma =
      (.error (.runtimeError ("First pass encoding failed: " ++ env.pass1_result.stderr)),
       [⟨1, first_pass p (target_bitrate ts d) ma⟩], fs) := by
  simp [compress_video, get_video_info, get_video_duration, rate_plan,
    hinfo, hde, hparse, hd, hp1]

theorem compress_video_ok (fs : Fs) (env : FfmpegEnv) (p : FsPath)
    (ts : ℚ) (ma : Bool) (d : ℚ)
    (hinfo : env.info_result.exitCode = 0)
    (hde : env.duration_result.exitCode = 0)
    (hparse : parseFloatPy env.duration_result.stdout = some d)
    (hd : d ≠ 0)
    (hp1 : env.pass1_result.exitCode = 0)
    (hp2 : env.pass2_result.exitCode = 0) :
    compress_video fs env p ts ma =
      (.ok (get_video_output_path p (parentName p)),
       [⟨1, first_pass p (target_bitrate ts d) ma⟩,
        ⟨2, second_pass p (target_bitrate ts d) ma (get_video_output_path p (parentName p))⟩],
       fsWriteFile fs (parentName p) "output.mp4") := by
  simp [compress_video, get_video_info, get_video_duration, rate_plan,
    hinfo, hde, hparse, hd, hp1, hp2]

theorem parseFloat_60 : parseFloatPy "60" = some 60 := by
  simp only [parseFloatPy, parseFloatChars,
    show splitSign (trimChars "60".toList) = (1, ['6', '0']) from by decide,
    show splitDot ['6', '0'] = [['6', '0']] from by decide,
    show digitsVal ['6', '0'] = some 60 from by decide]
  norm_num
  simp

theorem parseFloat_NA : parseFloatPy "N/A" = none := by
  simp only [parseFloatPy, parseFloatChars,
    show splitSign (trimChars "N/A".toList) = (1, ['N', '/', 'A']) from by decide,
    show splitDot ['N', '/', 'A'] = [['N', '/', 'A']] from by decide,
    show digitsVal ['N', '/', 'A'] = none from by decide]
  simp

theorem target_bitrate_8_60 : target_bitrate 8 60 = 1118481 := by
  rw [target_bitrate, pyInt_eq_floor _ (by norm_num [target_size_bits]), Int.floor_eq_iff]
  norm_num [target_size_bits]

theorem parentName_temp (j n : String) : parentName (TEMP_DIR ++ [j, n]) = j := rfl

theorem save_blob_file_path (fs : Fs) (c : List ℕ) (j : String) :
    (save_blob_file fs c j).2 = TEMP_DIR ++ [j, "input.mp4"] := rfl

theorem fileExists_fsWriteFile (fs : Fs) (j n : String)
    (h : wsExists fs j = true) :
    fileExists (fsWriteFile fs j n) (TEMP_DIR ++ [j, n]) = true := by
  induction fs with
  | nil => simp [wsExists] at h
  | cons w rest ih =>
      by_cases hw : w.jobId = j
      · by_cases hn : n ∈ w.files <;>
          simp [fileExists, fsWriteFile, hw, hn, TEMP_DIR,
            show (TEMP_DIR ++ [j, n]).dropLast.getLastD "" = j from rfl,
            show (TEMP_DIR ++ [j, n]).getLastD "" = n from rfl]
      · have h' : wsExists rest j = true := by
          simpa [wsExists, hw] using h
        have := ih h'
        simp only [fileExists, Bool.and_eq_true, List.any_eq_true] at this ⊢
        refine ⟨this.1, ?_⟩
        obtain ⟨x, hx, hxp⟩ := this.2
        exact ⟨x, by simp [fsWriteFile] at hx ⊢; exact Or.inr hx, hxp⟩

theorem fsWriteFile_fresh_append (fs : Fs) (j n : String) (files : List String)
    (h : wsExists fs j = false) (hn : n ∉ files) :
    fsWriteFile (fs ++ [⟨j, files⟩]) j n = fs ++ [⟨j, files ++ [n]⟩] := by
  rw [fsWriteFile_append, fsWriteFile_of_not_exists fs j n h]
  simp [fsWriteFile, hn]

theorem save_blob_name (fs : Fs) (c : List ℕ) (j : String) :
    (save_blob_file fs c j).2.getLastD "" = "input.mp4" := rfl

theorem inner_try_pass1_fail (req : UploadRequest) (env : EndpointEnv) (fs : Fs) (d : ℚ)
    (hc : req.content ≠ [])
    (hff : env.ffmpegAvailable = true)
    (hinfo : env.ffmpeg.info_result.exitCode = 0)
    (hde : env.ffmpeg.duration_result.exitCode = 0)
    (hparse : parseFloatPy env.ffmpeg.duration_result.stdout = some d)
    (hd : d ≠ 0)
    (hp1 : env.ffmpeg.pass1_result.exitCode ≠ 0) :
    inner_try req env fs =
      (.error (.runtimeError ("First pass encoding failed: " ++ env.ffmpeg.pass1_result.stderr)),
       [.workspaceCreated env.job_id,
        .inputStaged env.job_id "input.mp4" req.content,
        .passRun 1],
       (save_blob_file fs req.content env.job_id).1) := by
  have hcv := compress_video_pass1_fail (save_blob_file fs req.content env.job_id).1
    env.ffmpeg (save_blob_file fs req.content env.job_id).2
    req.target_size_mb req.maintainAspect d hinfo hde hparse hd hp1
  simp [inner_try, hc, hff, hcv, save_blob_name]
  rfl

theorem inner_try_ok (req : UploadRequest) (env : EndpointEnv) (fs : Fs) (d : ℚ)
    (hc : req.content ≠ [])
    (hff : env.ffmpegAvailable = true)
    (hinfo : env.ffmpeg.info_result.exitCode = 0)
    (hde : env.ffmpeg.duration_result.exitCode = 0)
    (hparse : parseFloatPy env.ffmpeg.duration_result.stdout = some d)
    (hd : d ≠ 0)
    (hp1 : env.ffmpeg.pass1_result.exitCode = 0)
    (hp2 : env.ffmpeg.pass2_result.exitCode = 0) :
    inner_try req env fs =
      (.ok env.outputBytes,
       [.workspaceCreated env.job_id,
        .inputStaged env.job_id "input.mp4" req.content,
        .passRun 1, .passRun 2],
       fsWriteFile (save_blob_file fs req.content env.job_id).1 env.job_id "output.mp4") := by
  have hcv := compress_video_ok (save_blob_file fs req.content env.job_id).1
    env.ffmpeg (save_blob_file fs req.content env.job_id).2
    req.target_size_mb req.maintainAspect d hinfo hde hparse hd hp1 hp2
  rw [save_blob_file_path, parentName_temp] at hcv
  have hre : read_file_as_bytes
      (fsWriteFile (save_blob_file fs req.content env.job_id).1 env.job_id "output.mp4")
      (get_video_output_path (TEMP_DIR ++ [env.job_id, "input.mp4"]) env.job_id)
      env.outputBytes = .ok env.outputBytes := by
    rw [read_file_as_bytes, get_video_output_path,
      if_pos (fileExists_fsWriteFile _ _ _ (save_blob_file_exists fs req.content env.job_id))]
  simp [inner_try, hc, hff, save_blob_file_path, hcv, save_blob_name, hre]

/-- C6: workspace cleanup is idempotent.  `cleanup_temp_files` always
succeeds (it never raises): on any filesystem it returns the filesystem
with the job's workspace removed; the workspace is absent afterwards; and
invoking it again on the result (or on any filesystem where the workspace
never existed, which the first conjunct also covers) returns the
filesystem unchanged. -/
theorem c6_cleanup_idempotent (fs : Fs) (j : String) :
    cleanup_temp_files fs j = .ok (fs.filter (fun w => w.jobId ≠ j)) ∧
    wsExists (fs.filter (fun w => w.jobId ≠ j)) j = false ∧
    cleanup_temp_files (fs.filter (fun w => w.jobId ≠ j)) j
      = .ok (fs.filter (fun w => w.jobId ≠ j)) := by
  refine ⟨cleanup_removes fs j, wsExists_filter fs j, ?_⟩
  rw [cleanup_temp_files, if_neg (by rw [wsExists_filter fs j]; simp)]

/-- C10: the job id `compress_video` re-derives from the input path's
parent directory name equals the id `save_blob_file` staged under, the
output path it derives is `TEMP_DIR/J/output.mp4`, the output artifact's
directory is the staged input's directory (the same workspace), and
`cleanup_temp_files J` removes exactly that workspace. -/
theorem c10_jobid_roundtrip (fs : Fs) (content : List ℕ) (J : String) :
    parentName (save_blob_file fs content J).2 = J ∧
    get_video_output_path (save_blob_file fs content J).2
        (parentName (save_blob_file fs content J).2) = TEMP_DIR ++ [J, "output.mp4"] ∧
    (get_video_output_path (save_blob_file fs content J).2
        (parentName (save_blob_file fs content J).2)).dropLast
      = (save_blob_file fs content J).2.dropLast ∧
    cleanup_temp_files (fsWriteFile (save_blob_file fs content J).1 J "output.mp4") J
      = .ok ((fsWriteFile (save_blob_file fs content J).1 J "output.mp4").filter
          (fun w => w.jobId ≠ J)) ∧
    wsExists ((fsWriteFile (save_blob_file fs content J).1 J "output.mp4").filter
          (fun w => w.jobId ≠ J)) J = false :=
  ⟨rfl, rfl, rfl, cleanup_removes _ _, wsExists_filter _ _⟩

/-- C1 as stated is false: the rate-planning step does compute
`floor(targetSizeMB * 8 * 1024 * 1024 / durationSeconds)`, but that value
is not strictly positive for every positive input — at
`targetSizeMB = 1, durationSeconds = 10000000` (both strictly positive)
the computed target bitrate is `0`. -/
theorem c1_counterexample :
    (0 : ℚ) < 1 ∧ (0 : ℚ) < 10000000 ∧ target_bitrate 1 10000000 = 0 := by
  refine ⟨by norm_num, by norm_num, ?_⟩
  rw [target_bitrate, pyInt_eq_floor _ (by norm_num [target_size_bits]), Int.floor_eq_iff]
  norm_num [target_size_bits]

/-- C1 (amended): for every `targetSizeMB > 0` and `durationSeconds > 0`
the rate-planning step succeeds and computes the target bitrate as
`floor(targetSizeMB * 8 * 1024 * 1024 / durationSeconds)` (truncation
toward zero, which on these nonnegative quotients is the floor); the
value is nonnegative, and it is strictly positive if and only if
`durationSeconds ≤ targetSizeMB * 8 * 1024 * 1024`. -/
theorem c1_amended_floor_nonneg (ts dur : ℚ) (hts : 0 < ts) (hdur : 0 < dur) :
    rate_plan ts dur = .ok (target_bitrate ts dur) ∧
    target_bitrate ts dur = ⌊ts * 8 * 1024 * 1024 / dur⌋ ∧
    0 ≤ target_bitrate ts dur ∧
    (0 < target_bitrate ts dur ↔ dur ≤ ts * 8 * 1024 * 1024) := by
  have hq : 0 ≤ target_size_bits ts / dur := by
    apply div_nonneg _ hdur.le
    rw [target_size_bits]
    positivity
  have hfl := pyInt_eq_floor _ hq
  refine ⟨by rw [rate_plan, if_neg hdur.ne'], ?_, ?_, ?_⟩
  · rw [target_bitrate, hfl, target_size_bits]
  · rw [target_bitrate, hfl]
    exact Int.le_floor.mpr (by simpa using hq)
  · rw [target_bitrate, hfl]
    constructor
    · intro h
      have h1 : (1 : ℚ) ≤ target_size_bits ts / dur := by
        exact_mod_cast Int.le_floor.mp h
      have := (le_div_iff hdur).mp h1
      rw [one_mul, target_size_bits] at this
      linarith
    · intro h
      have h1 : (1 : ℚ) ≤ target_size_bits ts / dur := by
        rw [le_div_iff hdur, one_mul, target_size_bits]
        linarith
      exact Int.le_floor.mpr (by exact_mod_cast h1)

/-- Witness for the C1 amended theorem at the spec's own end-to-end
scenario, 8 MB over 60 seconds. -/
theorem c1_amended_floor_nonneg_witness :
    rate_plan 8 60 = .ok (target_bitrate 8 60) ∧
    target_bitrate 8 60 = ⌊(8 : ℚ) * 8 * 1024 * 1024 / 60⌋ ∧
    0 ≤ target_bitrate 8 60 ∧
    (0 < target_bitrate 8 60 ↔ (60 : ℚ) ≤ 8 * 8 * 1024 * 1024) :=
  c1_amended_floor_nonneg 8 60 (by norm_num) (by norm_num)

/-- C3 as stated is false: there is no `InvalidTargetError` validation in
the rate-planning step.  With `durationSeconds = 0` it raises
`ZeroDivisionError` (it does attempt the division), and with
`targetSizeMB = -1, durationSeconds = 10` it succeeds and produces the
negative target bitrate `-838860`. -/
theorem c3_counterexample :
    rate_plan 8 0 = .error PyExc.zeroDivisionError ∧
    rate_plan (-1) 10 = .ok (-838860) ∧ (-838860 : ℤ) < 0 := by
  refine ⟨by rw [rate_plan, if_pos rfl], ?_, by norm_num⟩
  rw [rate_plan, if_neg (by norm_num), target_bitrate,
    pyInt_eq_ceil _ (by norm_num [target_size_bits])]
  refine congrArg Except.ok ?_
  rw [Int.ceil_eq_iff]
  norm_num [target_size_bits]

/-- C3 (amended): the rate-planning step has no validation of its own —
with `durationSeconds = 0` it always raises `ZeroDivisionError` (never
`InvalidTargetError`), and with `targetSizeMB ≤ 0` and a positive
duration it does not fail at all but returns a non-positive target
bitrate. -/
theorem c3_amended_no_validation (ts dur : ℚ) :
    rate_plan ts 0 = .error PyExc.zeroDivisionError ∧
    (ts ≤ 0 → 0 < dur → rate_plan ts dur = .ok (target_bitrate ts dur) ∧
      target_bitrate ts dur ≤ 0) := by
  refine ⟨by rw [rate_plan, if_pos rfl], fun hts hdur => ⟨by rw [rate_plan, if_neg hdur.ne'], ?_⟩⟩
  have hb : target_size_bits ts ≤ 0 := by
    rw [target_size_bits]
    nlinarith
  have hq : target_size_bits ts / dur ≤ 0 := div_nonpos_iff.mpr (Or.inr ⟨hb, hdur.le⟩)
  rcases eq_or_lt_of_le hq with h0 | hneg
  · rw [target_bitrate, h0, pyInt_eq_floor _ le_rfl]
    simp
  · rw [target_bitrate, pyInt_eq_ceil _ hneg]
    exact Int.ceil_le.mpr (by exact_mod_cast hq)

/-- Witness for the C3 amended theorem at `targetSizeMB = -1`,
`durationSeconds = 10`. -/
theorem c3_amended_no_validation_witness :
    rate_plan (-1) 0 = .error PyExc.zeroDivisionError ∧
    rate_plan (-1) 10 = .ok (target_bitrate (-1) 10) ∧
    target_bitrate (-1) 10 ≤ 0 :=
  ⟨(c3_amended_no_validation (-1) 10).1,
   ((c3_amended_no_validation (-1) 10).2 (by norm_num) (by norm_num)).1,
   ((c3_amended_no_validation (-1) 10).2 (by norm_num) (by norm_num)).2⟩

/-- C2 as stated is false: the claim's concrete scenario (8 MB over 60
seconds) asserts a max bitrate of 1,677,721, but the parameter actually
passed after `-maxrate` is `target_bitrate * 1.5 = 1677721.5`
(`3355443/2`), a non-integer, not 1,677,721. -/
theorem c2_counterexample :
    argAfter (first_pass (TEMP_DIR ++ ["job-1", "input.mp4"]) (target_bitrate 8 60) true)
        "-maxrate" = some (.num (3355443 / 2)) ∧
    (3355443 / 2 : ℚ) ≠ 1677721 := by
  constructor
  · rw [target_bitrate_8_60]
    have h : argAfter (first_pass (TEMP_DIR ++ ["job-1", "input.mp4"]) 1118481 true)
        "-maxrate" = some (.num ((1118481 : ℚ) * 1.5)) := rfl
    rw [h]
    norm_num
  · norm_num

/-- C2 (amended): in both encode passes the parameter following
`-maxrate` is exactly `1.5 ×` the integer target bitrate and the
parameter following `-bufsize` is exactly `2 ×` it; in the 8 MB / 60 s
scenario the target bitrate is 1,118,481 bps, the max-bitrate parameter
is `1677721.5` (= 3355443/2, a non-integer), and the buffer-size
parameter is 2,236,962. -/
theorem c2_amended_derived_params (p out : FsPath) (tb : ℤ) (ma : Bool) :
    argAfter (first_pass p tb ma) "-maxrate" = some (.num ((tb : ℚ) * 1.5)) ∧
    argAfter (first_pass p tb ma) "-bufsize" = some (.num ((tb : ℚ) * 2)) ∧
    argAfter (second_pass p tb ma out) "-maxrate" = some (.num ((tb : ℚ) * 1.5)) ∧
    argAfter (second_pass p tb ma out) "-bufsize" = some (.num ((tb : ℚ) * 2)) ∧
    target_bitrate 8 60 = 1118481 ∧
    (target_bitrate 8 60 : ℚ) * 1.5 = 3355443 / 2 ∧
    (target_bitrate 8 60 : ℚ) * 2 = 2236962 := by
  refine ⟨?_, ?_, ?_, ?_, target_bitrate_8_60, ?_, ?_⟩
  · cases ma <;> rfl
  · cases ma <;> rfl
  · cases ma <;> rfl
  · cases ma <;> rfl
  · rw [target_bitrate_8_60]; norm_num
  · rw [target_bitrate_8_60]; norm_num

/-- C7: the second pass receives the same `-b:v`, `-maxrate` and
`-bufsize` parameters as the first pass, plus the fixed audio parameters
(AAC codec, 128k audio bitrate, 44100 Hz sample rate, 2 channels);
whenever `maintain_aspect_ratio` is set the `-vf` argument is the filter
that rounds each dimension down to the nearest even integer, and that
filter maps a 1281×721 source to 1280×720. -/
theorem c7_second_pass_params (p out : FsPath) (tb : ℤ) (ma : Bool) :
    argAfter (second_pass p tb ma out) "-b:v" = argAfter (first_pass p tb ma) "-b:v" ∧
    argAfter (second_pass p tb ma out) "-maxrate" = argAfter (first_pass p tb ma) "-maxrate" ∧
    argAfter (second_pass p tb ma out) "-bufsize" = argAfter (first_pass p tb ma) "-bufsize" ∧
    argAfter (second_pass p tb ma out) "-c:a" = some (.str "aac") ∧
    argAfter (second_pass p tb ma out) "-b:a" = some (.str "128k") ∧
    argAfter (second_pass p tb ma out) "-ar" = some (.str "44100") ∧
    argAfter (second_pass p tb ma out) "-ac" = some (.str "2") ∧
    argAfter (second_pass p tb true out) "-vf" = some (.str scale_filter) ∧
    evenScale 1281 721 = (1280, 720) := by
  cases ma <;> exact ⟨rfl, rfl, rfl, rfl, rfl, rfl, rfl, rfl, rfl⟩

/-- C8 as stated is false: with a zero exit code and the unparsable
stdout `"N/A"` (metadata extraction failed — unparsable output),
`get_video_duration` raises a bare `ValueError` from `float()`, not the
`RuntimeError` that carries the probe's diagnostic detail. -/
theorem c8_counterexample :
    get_video_duration ⟨0, "N/A", ""⟩
      = .error (.valueError ("could not convert string to float: " ++ trimStr "N/A")) ∧
    trimStr "N/A" = "N/A" ∧
    isProbeError (get_video_duration ⟨0, "N/A", ""⟩) = false := by
  refine ⟨?_, by decide, ?_⟩
  · simp [get_video_duration, parseFloat_NA]
  · simp [isProbeError, get_video_duration, parseFloat_NA]

/-- C8 (amended): each probe helper fails with the ProbeError
(`RuntimeError` carrying the tool's stderr) exactly when the tool exits
non-zero (an unreadable asset surfaces as such an exit).  On a zero exit,
`get_video_info` returns the raw stdout unparsed; `get_video_duration`
and `get_video_bitrate` return the parsed value when stdout parses and
otherwise raise a bare `ValueError` — not the ProbeError.  No probe
mutates any state (they are pure functions of the process result). -/
theorem c8_amended_probe_errors (res : ProcResult) :
    (isProbeError (get_video_duration res) = true ↔ res.exitCode ≠ 0) ∧
    (isProbeError (get_video_bitrate res) = true ↔ res.exitCode ≠ 0) ∧
    (isProbeError (get_video_info res) = true ↔ res.exitCode ≠ 0) ∧
    (res.exitCode = 0 → get_video_info res = .ok res.stdout) ∧
    (∀ d, res.exitCode = 0 → parseFloatPy res.stdout = some d →
      get_video_duration res = .ok d) ∧
    (res.exitCode = 0 → parseFloatPy res.stdout = none →
      get_video_duration res
        = .error (.valueError ("could not convert string to float: " ++ trimStr res.stdout))) ∧
    (∀ b, res.exitCode = 0 → parseIntPy res.stdout = some b →
      get_video_bitrate res = .ok b) ∧
    (res.exitCode = 0 → parseIntPy res.stdout = none →
      get_video_bitrate res
        = .error (.valueError ("invalid literal for int with base 10: " ++ trimStr res.stdout))) := by
  by_cases he : res.exitCode = 0
  · cases hpf : parseFloatPy res.stdout <;> cases hpi : parseIntPy res.stdout <;>
      simp [get_video_duration, get_video_bitrate, get_video_info, isProbeError, he, hpf, hpi]
  · simp [get_video_duration, get_video_bitrate, get_video_info, isProbeError, he]

/-- Witness for the C8 amended theorem: a non-zero exit yields the
ProbeError for the duration probe, and a zero exit with parsable stdout
yields the parsed duration. -/
theorem c8_amended_probe_errors_witness :
    isProbeError (get_video_duration ⟨1, "", "boom"⟩) = true ∧
    get_video_duration ⟨0, "60", ""⟩ = .ok 60 :=
  ⟨(c8_amended_probe_errors ⟨1, "", "boom"⟩).1.mpr (by decide),
   (c8_amended_probe_errors ⟨0, "60", ""⟩).2.2.2.2.1 60 rfl parseFloat_60⟩

/-- C5: a request whose content type is not in the allow-list is rejected
with a 400 client error, with an empty event trace (no job id generated,
no workspace created, no bytes staged — the `finally` block's cleanup
call dies on an unbound `job_id` and is swallowed) and the filesystem
untouched. -/
theorem c5_bad_mime_rejected (req : UploadRequest) (env : EndpointEnv) (fs : Fs)
    (h : supported_format req.contentType = false) :
    compress_video_endpoint req env fs = (.failure 400 unsupported_detail, [], fs) := by
  rw [compress_video_endpoint, if_pos h]

/-- Witness for C5: a `text/plain` upload is rejected before anything
happens. -/
theorem c5_bad_mime_rejected_witness :
    compress_video_endpoint ⟨"text/plain", "a.txt", [1], 8, true⟩
        ⟨"j1", true, ⟨⟨0, "", ""⟩, ⟨0, "60", ""⟩, ⟨0, "", ""⟩, ⟨0, "", ""⟩⟩, [7]⟩ []
      = (.failure 400 unsupported_detail, [], []) :=
  c5_bad_mime_rejected _ _ _ (by decide)

/-- C4: when pass 1 exits non-zero the endpoint fails with the encode
error naming the first pass, the event trace shows pass 2 was never
invoked and ends with the cleanup, and the job's workspace is absent from
the filesystem returned alongside the error. -/
theorem c4_pass1_failure_aborts (req : UploadRequest) (env : EndpointEnv) (fs : Fs) (d : ℚ)
    (hsf : supported_format req.contentType = true)
    (hc : req.content ≠ [])
    (hff : env.ffmpegAvailable = true)
    (hinfo : env.ffmpeg.info_result.exitCode = 0)
    (hde : env.ffmpeg.duration_result.exitCode = 0)
    (hparse : parseFloatPy env.ffmpeg.duration_result.stdout = some d)
    (hd : d ≠ 0)
    (hp1 : env.ffmpeg.pass1_result.exitCode ≠ 0) :
    (compress_video_endpoint req env fs).1
      = .failure 500 ("Video processing failed: "
          ++ ("First pass encoding failed: " ++ env.ffmpeg.pass1_result.stderr)) ∧
    (compress_video_endpoint req env fs).2.1
      = [.genJobId env.job_id, .workspaceCreated env.job_id,
         .inputStaged env.job_id "input.mp4" req.content,
         .passRun 1, .cleanupRun env.job_id] ∧
    Event.passRun 2 ∉ (compress_video_endpoint req env fs).2.1 ∧
    wsExists (compress_video_endpoint req env fs).2.2 env.job_id = false := by
  have hit := inner_try_pass1_fail req env fs d hc hff hinfo hde hparse hd hp1
  have hmain : compress_video_endpoint req env fs
      = (.failure 500 ("Video processing failed: "
            ++ ("First pass encoding failed: " ++ env.ffmpeg.pass1_result.stderr)),
         [.genJobId env.job_id, .workspaceCreated env.job_id,
          .inputStaged env.job_id "input.mp4" req.content,
          .passRun 1, .cleanupRun env.job_id],
         ((save_blob_file fs req.content env.job_id).1).filter
           (fun w => w.jobId ≠ env.job_id)) := by
    simp [compress_video_endpoint, hsf, hit, except_to_response, pyStr, cleanup_removes]
  rw [hmain]
  exact ⟨rfl, rfl, by simp, wsExists_filter _ _⟩

/-- Witness for C4 at a concrete failing job: pass 1 exits 1 with stderr
`boom`; the endpoint returns the pass-1 encode error, pass 2 never runs,
and the workspace is gone. -/
theorem c4_pass1_failure_aborts_witness :
    (compress_video_endpoint ⟨"video/mp4", "clip.mp4", [1, 2], 8, true⟩
        ⟨"j1", true, ⟨⟨0, "meta", ""⟩, ⟨0, "60", ""⟩, ⟨1, "", "boom"⟩, ⟨0, "", ""⟩⟩, [9]⟩ []).1
      = .failure 500 ("Video processing failed: "
          ++ ("First pass encoding failed: " ++ "boom")) ∧
    Event.passRun 2 ∉ (compress_video_endpoint ⟨"video/mp4", "clip.mp4", [1, 2], 8, true⟩
        ⟨"j1", true, ⟨⟨0, "meta", ""⟩, ⟨0, "60", ""⟩, ⟨1, "", "boom"⟩, ⟨0, "", ""⟩⟩, [9]⟩ []).2.1 ∧
    wsExists ((compress_video_endpoint ⟨"video/mp4", "clip.mp4", [1, 2], 8, true⟩
        ⟨"j1", true, ⟨⟨0, "meta", ""⟩, ⟨0, "60", ""⟩, ⟨1, "", "boom"⟩, ⟨0, "", ""⟩⟩, [9]⟩ []).2.2)
      "j1" = false := by
  have h := c4_pass1_failure_aborts ⟨"video/mp4", "clip.mp4", [1, 2], 8, true⟩
    ⟨"j1", true, ⟨⟨0, "meta", ""⟩, ⟨0, "60", ""⟩, ⟨1, "", "boom"⟩, ⟨0, "", ""⟩⟩, [9]⟩ [] 60
    (by decide) (by decide) rfl rfl rfl parseFloat_60 (by norm_num) (by decide)
  exact ⟨h.1, h.2.2.1, h.2.2.2⟩

/-- C9 as stated is false: the staged input file's name does not reflect
the uploaded file's format.  For a `video/quicktime` upload (extension
`.mov` in the allow-list) the staged file is still named `input.mp4`, not
`input.mov`. -/
theorem c9_counterexample :
    SUPPORTED_FORMATS.lookup "video/quicktime" = some ".mov" ∧
    (save_blob_file [] [1] "j1").2 = TEMP_DIR ++ ["j1", "input.mp4"] ∧
    (save_blob_file [] [1] "j1").1 = [⟨"j1", ["input.mp4"]⟩] ∧
    "input.mp4" ≠ "input" ++ ".mov" := by
  refine ⟨by decide, rfl, by decide, by decide⟩

/-- C9 (amended): during a successful job the persisted state is exactly
one workspace directory for the job, containing the staged input file —
always named `input.mp4` regardless of the uploaded format — and the
output file `output.mp4`; after the response is produced the workspace is
removed, so no state outlives the job. -/
theorem c9_amended_workspace_layout (req : UploadRequest) (env : EndpointEnv) (fs : Fs) (d : ℚ)
    (hsf : supported_format req.contentType = true)
    (hc : req.content ≠ [])
    (hff : env.ffmpegAvailable = true)
    (hinfo : env.ffmpeg.info_result.exitCode = 0)
    (hde : env.ffmpeg.duration_result.exitCode = 0)
    (hparse : parseFloatPy env.ffmpeg.duration_result.stdout = some d)
    (hd : d ≠ 0)
    (hp1 : env.ffmpeg.pass1_result.exitCode = 0)
    (hp2 : env.ffmpeg.pass2_result.exitCode = 0)
    (hfresh : wsExists fs env.job_id = false) :
    (inner_try req env fs).2.2 = fs ++ [⟨env.job_id, ["input.mp4", "output.mp4"]⟩] ∧
    (compress_video_endpoint req env fs).1
      = .success env.outputBytes "video/mp4"
          ("compressed_" ++ splitext_stem req.filename ++ ".mp4") ∧
    (compress_video_endpoint req env fs).2.2 = fs := by
  have hit := inner_try_ok req env fs d hc hff hinfo hde hparse hd hp1 hp2
  have hsave : (save_blob_file fs req.content env.job_id).1
      = fs ++ [⟨env.job_id, ["input.mp4"]⟩] := by
    show fsWriteFile (if wsExists fs env.job_id then fs else fs ++ [⟨env.job_id, []⟩])
        env.job_id "input.mp4" = _
    rw [if_neg (by rw [hfresh]; simp)]
    simpa using fsWriteFile_fresh_append fs env.job_id "input.mp4" [] hfresh (by simp)
  have hwrite : fsWriteFile (save_blob_file fs req.content env.job_id).1
      env.job_id "output.mp4" = fs ++ [⟨env.job_id, ["input.mp4", "output.mp4"]⟩] := by
    rw [hsave]
    simpa using fsWriteFile_fresh_append fs env.job_id "output.mp4" ["input.mp4"] hfresh (by simp)
  have hclean : cleanup_temp_files (fsWriteFile (save_blob_file fs req.content env.job_id).1
      env.job_id "output.mp4") env.job_id = .ok fs := by
    rw [hwrite, cleanup_removes, List.filter_append, filter_of_not_exists fs _ hfresh]
    simp
  refine ⟨by rw [hit]; exact hwrite, ?_, ?_⟩
  · simp [compress_video_endpoint, hsf, hit]
  · simp [compress_video_endpoint, hsf, hit, hclean]

/-- Witness for the C9 amended theorem at a concrete successful job. -/
theorem c9_amended_workspace_layout_witness :
    (inner_try ⟨"video/quicktime", "clip.mov", [1, 2], 8, true⟩
        ⟨"j1", true, ⟨⟨0, "meta", ""⟩, ⟨0, "60", ""⟩, ⟨0, "", ""⟩, ⟨0, "", ""⟩⟩, [9]⟩ []).2.2
      = [⟨"j1", ["input.mp4", "output.mp4"]⟩] ∧
    (compress_video_endpoint ⟨"video/quicktime", "clip.mov", [1, 2], 8, true⟩
        ⟨"j1", true, ⟨⟨0, "meta", ""⟩, ⟨0, "60", ""⟩, ⟨0, "", ""⟩, ⟨0, "", ""⟩⟩, [9]⟩ []).1
      = .success [9] "video/mp4" ("compressed_" ++ splitext_stem "clip.mov" ++ ".mp4") ∧
    (compress_video_endpoint ⟨"video/quicktime", "clip.mov", [1, 2], 8, true⟩
        ⟨"j1", true, ⟨⟨0, "meta", ""⟩, ⟨0, "60", ""⟩, ⟨0, "", ""⟩, ⟨0, "", ""⟩⟩, [9]⟩ []).2.2
      = [] := by
  have h := c9_amended_workspace_layout ⟨"video/quicktime", "clip.mov", [1, 2], 8, true⟩
    ⟨"j1", true, ⟨⟨0, "meta", ""⟩, ⟨0, "60", ""⟩, ⟨0, "", ""⟩, ⟨0, "", ""⟩⟩, [9]⟩ [] 60
    (by decide) (by decide) rfl rfl rfl parseFloat_60 (by norm_num) rfl rfl rfl
  exact ⟨h.1, h.2.1, h.2.2⟩
